import Mathlib

/-!
Shallow embedding of the checked-arithmetic core of `include/checked.hpp`
(boost safe_numerics, layer 0).  Machine integer types are modelled by a
signedness flag together with the number of value digits (as returned by
`std::numeric_limits<..>::digits`); values are plain `Int`s constrained to
the type's range.  Each C++ function template is translated to a Lean
function parameterised over these type descriptors.

The file `checked_result.hpp` is not part of the sources; its behaviour is
modelled from the spec where needed (see the doc comments on
`CheckedResult.val` and `detailAutoDivide`).
-/

namespace SafeNumerics

/-- The failure kinds of `exception_type` used by `checked.hpp`. -/
inductive ExceptionType where
  | range_error : ExceptionType
  | overflow_error : ExceptionType
  | underflow_error : ExceptionType
  | domain_error : ExceptionType
deriving DecidableEq, Repr

/-- Model of `checked_result<R>`: either a value or a failure kind with its
diagnostic message.  Values of every machine type are embedded into `Int`. -/
inductive CheckedResult where
  | ok : Int → CheckedResult
  | err : ExceptionType → String → CheckedResult
deriving DecidableEq, Repr

/-- Model of `checked_result::no_exception()`. -/
def CheckedResult.noException : CheckedResult → Bool
  | .ok _ => true
  | .err _ _ => false

/-- The failure kind of a result, if any. -/
def CheckedResult.kind : CheckedResult → Option ExceptionType
  | .ok _ => none
  | .err e _ => some e

/-- Model of reading the raw member `m_r`.  Modelled from the spec:
`checked_result.hpp` is not in the sources; per the spec, querying the value
of an `Err` is an invalid operation, and every use below occurs behind a
`noException` guard, so the value returned in the `err` case (0) is never
observed. -/
def CheckedResult.val : CheckedResult → Int
  | .ok v => v
  | .err _ _ => 0

/-- Descriptor of a native integer type: signedness and the value digit
count `std::numeric_limits<..>::digits` (width minus one for signed types,
full width for unsigned ones). -/
structure IntType where
  sgn : Bool
  digits : Nat
deriving DecidableEq, Repr

/-- `std::numeric_limits<R>::min()`. -/
def Rmin (R : IntType) : Int := if R.sgn then -(2 ^ R.digits) else 0

/-- `std::numeric_limits<R>::max()`. -/
def Rmax (R : IntType) : Int := 2 ^ R.digits - 1

/-- The value range of a machine integer type. -/
def inRange (R : IntType) (t : Int) : Prop := Rmin R ≤ t ∧ t ≤ Rmax R

instance (R : IntType) (t : Int) : Decidable (inRange R t) := by
  unfold inRange; infer_instance

/-- `std::int8_t`. -/
def int8T : IntType := ⟨true, 7⟩

/-- `std::int32_t`. -/
def int32T : IntType := ⟨true, 31⟩

/-- `std::int64_t` (also `std::intmax_t` on the reference platform). -/
def int64T : IntType := ⟨true, 63⟩

/-- `std::uint8_t`. -/
def uint8T : IntType := ⟨false, 8⟩

/-- `std::uint32_t`. -/
def uint32T : IntType := ⟨false, 32⟩

/-- `std::uint64_t`. -/
def uint64T : IntType := ⟨false, 64⟩

/-- `checked::cast<R>(t)` where `t` has type `T`: the four-way branch on the
signedness of `R` and `T` from `checked.hpp` lines 39-94.  All the C++
comparisons against the limits are value preserving (the negative case is
tested before any signed-to-unsigned comparison), so they are modelled as
comparisons in `Int`. -/
def cast (R T : IntType) (t : Int) : CheckedResult :=
  if R.sgn then
    if T.sgn then
      if t > Rmax R then .err .range_error "converted signed value too large"
      else if t < Rmin R then .err .range_error "converted signed value too small"
      else .ok t
    else
      if t > Rmax R then .err .range_error "converted unsigned value too large"
      else .ok t
  else
    if !T.sgn then
      if t > Rmax R then .err .range_error "converted unsigned value too large"
      else .ok t
    else
      if t < 0 then .err .range_error "converted negative value to unsigned"
      else if t > Rmax R then .err .range_error "converted signed value too large"
      else .ok t

/-- `detail::add<R>`: the unsigned overload (lines 102-120) and the signed
overload (lines 123-142), selected by the signedness of `R`. -/
def detailAdd (R : IntType) (t u : Int) : CheckedResult :=
  if R.sgn then
    if (u > 0 ∧ t > Rmax R - u) ∨ (u < 0 ∧ t < Rmin R - u) then
      .err .overflow_error "addition overflow"
    else .ok (t + u)
  else
    if Rmax R - u < t then
      .err .overflow_error "addition overflow"
    else .ok (t + u)

/-- `checked::add<R>(t, u)` (lines 146-164): cast both operands into `R`
(`u` first, but `t`'s failure returned first), then the detail check. -/
def add (R T U : IntType) (t u : Int) : CheckedResult :=
  let ru := cast R U u
  let rt := cast R T t
  if !rt.noException then rt
  else if !ru.noException then ru
  else detailAdd R t u

/-- `detail::divide<R>`: the unsigned overload (lines 388-398) and the
signed overload (lines 400-418).  C++ `/` truncates toward zero
(`Int.tdiv`). -/
def detailDivide (R : IntType) (t u : Int) : CheckedResult :=
  if R.sgn then
    if u = -1 ∧ t = Rmin R then
      .err .domain_error "result cannot be represented"
    else .ok (t.tdiv u)
  else .ok (t.tdiv u)

/-- `checked::divide<R>(t, u)` (lines 421-442): zero check, then both casts;
on any cast failure it builds a fresh `overflow_error`, then the detail
division on the cast members `m_r`. -/
def divide (R T U : IntType) (t u : Int) : CheckedResult :=
  if u = 0 then .err .domain_error "divide by zero"
  else
    let tx := cast R T t
    let ux := cast R U u
    if !tx.noException ∨ !ux.noException then
      .err .overflow_error "failure converting argument types"
    else detailDivide R tx.val ux.val

/-- `detail::modulus<R>`: the unsigned overload (lines 518-528) and the
signed overload (lines 530-549), whose error condition is
`u < 0 && t == min`.  C++ `%` truncates (`Int.tmod`). -/
def detailModulus (R : IntType) (t u : Int) : CheckedResult :=
  if R.sgn then
    if u < 0 ∧ t = Rmin R then
      .err .domain_error "result cannot be represented"
    else .ok (t.tmod u)
  else .ok (t.tmod u)

/-- `checked::modulus<R>(t, u)` (lines 553-585): zero check, cast `t` then
`u` propagating the first cast failure, then the detail operation. -/
def modulus (R T U : IntType) (t u : Int) : CheckedResult :=
  if u = 0 then .err .domain_error "denominator is zero"
  else
    match cast R T t with
    | .err k m => .err k m
    | .ok rt =>
      match cast R U u with
      | .err k m => .err k m
      | .ok ru => detailModulus R rt ru

/-- `detail::multiply<R>` for unsigned `R` small enough for a widened
intermediate (lines 238-261): the product is computed exactly in
`uintmax_t` and compared against the maximum. -/
def multiplyUnsignedWide (R : IntType) (t u : Int) : CheckedResult :=
  if t * u > Rmax R then .err .overflow_error "multiplication overflow"
  else .ok (t * u)

/-- `detail::multiply<R>` for unsigned `R` too wide for a native widened
intermediate (lines 262-281): bounded-division overflow check. -/
def multiplyUnsignedDiv (R : IntType) (t u : Int) : CheckedResult :=
  if u > 0 ∧ t > (Rmax R).tdiv u then
    .err .overflow_error "multiplication overflow"
  else .ok (t * u)

/-- `detail::multiply<R>` for signed `R` small enough for a widened
intermediate (lines 284-318): exact product compared against max, then min;
the below-min case is flagged `underflow_error`. -/
def multiplySignedWide (R : IntType) (t u : Int) : CheckedResult :=
  if t * u > Rmax R then .err .overflow_error "multiplication overflow"
  else if t * u < Rmin R then .err .underflow_error "multiplication underflow"
  else .ok (t * u)

/-- `detail::multiply<R>` for signed `R` too wide for a native widened
intermediate (lines 319-363): sign-quadrant case split with bounded-division
checks; every failure is `overflow_error`. -/
def multiplySignedDiv (R : IntType) (t u : Int) : CheckedResult :=
  if t > 0 then
    if u > 0 then
      if t > (Rmax R).tdiv u then .err .overflow_error "multiplication overflow"
      else .ok (t * u)
    else
      if u < (Rmin R).tdiv t then .err .overflow_error "multiplication overflow"
      else .ok (t * u)
  else
    if u > 0 then
      if t < (Rmin R).tdiv u then .err .overflow_error "multiplication overflow"
      else .ok (t * u)
    else
      if t ≠ 0 ∧ u < (Rmax R).tdiv t then .err .overflow_error "multiplication overflow"
      else .ok (t * u)

/-- Division that refuses a zero divisor, used to show the bounded-division
multiply checks never divide by zero. -/
def tdivOpt (a b : Int) : Option Int :=
  if b = 0 then none else some (a.tdiv b)

/-- `multiplyUnsignedDiv` with its overflow-check division routed through
`tdivOpt`: `none` would mean the check divided by zero.  The `&&` in the
source short-circuits, so the division only happens under the `u > 0`
guard. -/
def multiplyUnsignedDivGuard (R : IntType) (t u : Int) : Option CheckedResult :=
  if u > 0 then
    (tdivOpt (Rmax R) u).map (fun q =>
      if t > q then .err .overflow_error "multiplication overflow"
      else .ok (t * u))
  else some (.ok (t * u))

/-- `multiplySignedDiv` with every overflow-check division routed through
`tdivOpt`; the last quadrant divides by `t` only under the short-circuited
`t != 0` guard, as in the source. -/
def multiplySignedDivGuard (R : IntType) (t u : Int) : Option CheckedResult :=
  if t > 0 then
    if u > 0 then
      (tdivOpt (Rmax R) u).map (fun q =>
        if t > q then .err .overflow_error "multiplication overflow"
        else .ok (t * u))
    else
      (tdivOpt (Rmin R) t).map (fun q =>
        if u < q then .err .overflow_error "multiplication overflow"
        else .ok (t * u))
  else
    if u > 0 then
      (tdivOpt (Rmin R) u).map (fun q =>
        if t < q then .err .overflow_error "multiplication overflow"
        else .ok (t * u))
    else
      if t ≠ 0 then
        (tdivOpt (Rmax R) t).map (fun q =>
          if u < q then .err .overflow_error "multiplication overflow"
          else .ok (t * u))
      else some (.ok (t * u))

/-- Map the widened-intermediate multiply classification onto the
bounded-division one: the division path has no `underflow_error` class and
reports those pairs as `overflow_error`. -/
def demoteUnderflow : CheckedResult → CheckedResult
  | .err .underflow_error _ => .err .overflow_error "multiplication overflow"
  | r => r

/-- Wrap an integer into the representable range of `C`: unchanged when it
fits, otherwise reduced modulo 2^width (the C++ conversion rule for
unsigned targets, and the two's-complement behaviour for signed ones). -/
def wrapTo (C : IntType) (v : Int) : Int :=
  if C.sgn then (v + 2 ^ C.digits) % 2 ^ (C.digits + 1) - 2 ^ C.digits
  else v % 2 ^ C.digits

/-- `detail::check_shift<R>(t, u)` (lines 592-626): cast the shift amount
`u` into `R`, propagate a cast failure, then flag a negative amount or an
amount above `numeric_limits<T>::digits` as `domain_error`; on success the
result carries the placeholder value 0. -/
def checkShift (R T U : IntType) (t u : Int) : CheckedResult :=
  match cast R U u with
  | .err k m => .err k m
  | .ok v =>
    if v < 0 then
      .err .domain_error "shifting negative amount is undefined behavior"
    else if v > (T.digits : Int) then
      .err .domain_error "shifting more bits than available is undefined behavior"
    else .ok 0

/-- The C++ shift `a << t` of a value of type `R`, modelled as
multiplication by a power of two wrapped into `R`. -/
def cppShl (R : IntType) (a t : Int) : Int := wrapTo R (a * 2 ^ t.toNat)

/-- `checked::left_shift<R>(t, u)` (lines 631-643): on a passing check the
source computes `static_cast<R>(r) << t`, i.e. it shifts the check's
placeholder result `r` left by the operand `t`. -/
def leftShift (R T U : IntType) (t u : Int) : CheckedResult :=
  match checkShift R T U t u with
  | .err k m => .err k m
  | .ok v => .ok (cppShl R v t)

/-- `detail_automatic::bits<T, U>()` (lines 446-460): guard bit plus sign
bit over the larger operand digit count, capped at the widest native signed
type (whose digit count is the `imaxD` parameter). -/
def bitsAuto (dT dU imaxD : Nat) : Nat := min (max dT dU + 1 + 1) (imaxD + 1)

/-- The intermediate type `boost::int_t<bits<T,U>()>::fast` used by
`detail_automatic::divide`: the signed type with `bits` total bits. -/
def autoTType (T U : IntType) (imaxD : Nat) : IntType :=
  ⟨true, bitsAuto T.digits U.digits imaxD - 1⟩

/-- Width in bits of a type, sign bit included. -/
def bitWidth (T : IntType) : Nat := if T.sgn then T.digits + 1 else T.digits

/-- C++ integral promotion: types narrower than `int` promote to `int`. -/
def promoteInt (T : IntType) : IntType := if bitWidth T < 32 then int32T else T

/-- C++ usual arithmetic conversions for two (promoted) integer operand
types, with rank measured by width: same signedness takes the wider type;
otherwise the unsigned type wins at equal or greater rank, the signed type
wins when strictly wider, and the unsigned counterpart of the signed type
is used otherwise. -/
def commonType (T U : IntType) : IntType :=
  let Tp := promoteInt T
  let Up := promoteInt U
  if Tp.sgn = Up.sgn then (if Up.digits ≤ Tp.digits then Tp else Up)
  else if Tp.sgn then
    if bitWidth Tp ≤ bitWidth Up then Up
    else if Up.digits ≤ Tp.digits then Tp
    else ⟨false, Tp.digits + 1⟩
  else
    if bitWidth Up ≤ bitWidth Tp then Tp
    else if Tp.digits ≤ Up.digits then Up
    else ⟨false, Up.digits + 1⟩

/-- The plain C++ expression `t / u` for operands of types `T` and `U`:
both operands are converted to the common type and divided with
truncation. -/
def usualDiv (T U : IntType) (t u : Int) : Int :=
  (wrapTo (commonType T U) t).tdiv (wrapTo (commonType T U) u)

/-- `detail_automatic::divide<R>(t, u)` (lines 462-494).  The outer
`Option` is `none` exactly when the source would read the raw value of a
failed `cast<t_type>` result.  Modelled from the spec: `checked_result.hpp`
is not in the sources, and per the spec querying the value of an `Err` is
an invalid operation, so that read has no defined result value. -/
def detailAutoDivide (R T U : IntType) (imaxD : Nat) (t u : Int) :
    Option CheckedResult :=
  if !U.sgn then some (.ok (wrapTo R (usualDiv T U t u)))
  else
    if T.digits = (autoTType T U imaxD).digits ∧ u = -1 ∧ t = Rmin T then
      some (.err .domain_error "result cannot be represented")
    else
      match cast (autoTType T U imaxD) T t, cast (autoTType T U imaxD) U u with
      | .ok a, .ok b => some (.ok (wrapTo R (a.tdiv b)))
      | _, _ => none

/-- `checked::divide_automatic<R>(t, u)` (lines 498-511). -/
def divideAutomatic (R T U : IntType) (imaxD : Nat) (t u : Int) :
    Option CheckedResult :=
  if u = 0 then some (.err .domain_error "divide by zero")
  else detailAutoDivide R T U imaxD t u

/-! ### Helper lemmas -/

lemma two_pow_pos (d : Nat) : (0 : Int) < 2 ^ d := pow_pos (by norm_num) d

lemma two_pow_le_two_pow {d e : Nat} (h : d ≤ e) : (2 : Int) ^ d ≤ 2 ^ e :=
  pow_le_pow_right₀ (by norm_num) h

lemma Rmin_nonpos (R : IntType) : Rmin R ≤ 0 := by
  unfold Rmin; split_ifs
  · have := two_pow_pos R.digits; omega
  · exact le_refl 0

lemma Rmax_nonneg (R : IntType) : 0 ≤ Rmax R := by
  unfold Rmax; have := two_pow_pos R.digits; omega

lemma cast_ok_of_inRange {R T : IntType} {t : Int} (hT : inRange T t)
    (hR : inRange R t) : cast R T t = .ok t := by
  obtain ⟨h1, h2⟩ := hR
  obtain ⟨h3, h4⟩ := hT
  have hpR := two_pow_pos R.digits
  have hpT := two_pow_pos T.digits
  simp only [Rmin, Rmax] at h1 h2 h3 h4
  unfold cast
  rcases Bool.eq_false_or_eq_true R.sgn with hRs | hRs <;>
    rcases Bool.eq_false_or_eq_true T.sgn with hTs | hTs <;>
    simp only [hRs, hTs, Bool.not_true, Bool.not_false, Bool.false_eq_true,
      eq_self_iff_true, if_true, if_false, Rmin, Rmax] at h1 h2 h3 h4 ⊢ <;>
    split_ifs with h5 h6 <;>
    first
      | rfl
      | (exfalso; omega)

/-! ### C1 -/

/-- C1: the claim states `left_shift<uint32>(1, 31) == Ok(2^31)`.  The code
instead shifts the check's placeholder result (0) left by the operand `t`,
returning `Ok(0)`: the spec is the clear intent and the code a slip. -/
theorem C1_left_shift_returns_zero :
    leftShift uint32T uint32T int32T 1 31 = .ok 0 ∧
    (CheckedResult.ok 0 : CheckedResult) ≠ .ok (2 ^ 31) := by
  refine ⟨by decide, by decide⟩

/-! ### C8 -/

/-- C8: for any integer types `R`, `T` and a value `t` of `T`, if `t` is
also representable in `R` then `cast<R>(t)` succeeds and returns `t`
unchanged; if `t` is not representable in `R` (too large, too small, or
negative into unsigned) the cast fails with `range_error`. -/
theorem C8_cast_roundtrip (R T : IntType) (t : Int) (hT : inRange T t) :
    (inRange R t → cast R T t = .ok t) ∧
    (¬ inRange R t → (cast R T t).kind = some .range_error) := by
  constructor
  · intro hR
    exact cast_ok_of_inRange hT hR
  · intro hR
    obtain ⟨h3, h4⟩ := hT
    rw [inRange, not_and_or, not_le, not_le] at hR
    have hpR := two_pow_pos R.digits
    have hpT := two_pow_pos T.digits
    simp only [Rmin, Rmax] at h3 h4 hR
    unfold cast
    rcases Bool.eq_false_or_eq_true R.sgn with hRs | hRs <;>
      rcases Bool.eq_false_or_eq_true T.sgn with hTs | hTs <;>
      simp only [hRs, hTs, Bool.not_true, Bool.not_false, Bool.false_eq_true,
        eq_self_iff_true, if_true, if_false, Rmin, Rmax] at h3 h4 hR ⊢ <;>
      split_ifs with h5 h6 <;>
      simp only [CheckedResult.kind] <;>
      (try rfl) <;>
      (exfalso; omega)

/-- C8 witness: `cast<int8>(100 as int32)` round-trips and
`cast<int8>(300 as int32)` is rejected with `range_error`. -/
theorem C8_witness :
    cast int8T int32T 100 = .ok 100 ∧
    (cast int8T int32T 300).kind = some .range_error :=
  ⟨(C8_cast_roundtrip int8T int32T 100 (by decide)).1 (by decide),
   (C8_cast_roundtrip int8T int32T 300 (by decide)).2 (by decide)⟩

/-! ### C7 -/

/-- C7: for operands representable in `R`, `add<R>(t, u)` returns the exact
sum whenever it is representable in `R`, and fails with `overflow_error`
whenever the exact sum exceeds `R::max` (both signedness branches of
`detail::add`). -/
theorem C7_add_exact (R T U : IntType) (t u : Int)
    (htT : inRange T t) (htR : inRange R t)
    (huU : inRange U u) (huR : inRange R u) :
    (inRange R (t + u) → add R T U t u = .ok (t + u)) ∧
    (t + u > Rmax R → add R T U t u = .err .overflow_error "addition overflow") := by
  have hct : cast R T t = .ok t := cast_ok_of_inRange htT htR
  have hcu : cast R U u = .ok u := cast_ok_of_inRange huU huR
  obtain ⟨h1, h2⟩ := htR
  obtain ⟨h3, h4⟩ := huR
  have hmn := Rmin_nonpos R
  unfold add
  rw [hct, hcu]
  simp only [CheckedResult.noException, Bool.not_true, Bool.false_eq_true,
    if_false]
  unfold detailAdd
  constructor
  · rintro ⟨hs1, hs2⟩
    split_ifs with hsgn hc hc
    · exfalso; omega
    · rfl
    · exfalso; omega
    · rfl
  · intro hover
    split_ifs with hsgn hc hc
    · rfl
    · exfalso; omega
    · rfl
    · exfalso; omega

/-- C7 witness: `add<int8>(100, 27) == Ok(127)` and `add<int8>(100, 28)`
overflows. -/
theorem C7_witness :
    add int8T int8T int8T 100 27 = .ok 127 ∧
    add int8T int8T int8T 100 28 = .err .overflow_error "addition overflow" :=
  ⟨(C7_add_exact int8T int8T int8T 100 27 (by decide) (by decide) (by decide)
      (by decide)).1 (by decide),
   (C7_add_exact int8T int8T int8T 100 28 (by decide) (by decide) (by decide)
      (by decide)).2 (by decide)⟩

/-! ### C6, C4, C3 -/

/-- C6: for signed `R` and in-range operands with `u != 0`, `divide<R>`
fails with `domain_error` exactly when `u == -1` and `t == R::min`, and
otherwise returns the truncated quotient. -/
theorem C6_divide_signed (R T U : IntType) (t u : Int) (hs : R.sgn = true)
    (htT : inRange T t) (htR : inRange R t)
    (huU : inRange U u) (huR : inRange R u) (hu : u ≠ 0) :
    (u = -1 ∧ t = Rmin R →
      divide R T U t u = .err .domain_error "result cannot be represented") ∧
    (¬(u = -1 ∧ t = Rmin R) → divide R T U t u = .ok (t.tdiv u)) := by
  have hct : cast R T t = .ok t := cast_ok_of_inRange htT htR
  have hcu : cast R U u = .ok u := cast_ok_of_inRange huU huR
  unfold divide
  rw [if_neg hu, hct, hcu]
  simp only [CheckedResult.noException, CheckedResult.val, Bool.not_true,
    Bool.false_eq_true, or_self, if_false]
  unfold detailDivide
  rw [if_pos hs]
  constructor
  · intro hc
    rw [if_pos hc]
  · intro hc
    rw [if_neg hc]

/-- C6 witness: `divide<int8>(-128, -1)` fails with `domain_error` and
`divide<int8>(-128, -2) == Ok(64)`. -/
theorem C6_witness :
    divide int8T int8T int8T (-128) (-1) =
      .err .domain_error "result cannot be represented" ∧
    divide int8T int8T int8T (-128) (-2) = .ok 64 :=
  ⟨(C6_divide_signed int8T int8T int8T (-128) (-1) rfl (by decide) (by decide)
      (by decide) (by decide) (by decide)).1 (by decide),
   by
    have h := (C6_divide_signed int8T int8T int8T (-128) (-2) rfl (by decide)
      (by decide) (by decide) (by decide) (by decide)).2 (by decide)
    rw [h]; decide⟩

/-- C4 counterexample: the claim says `modulus<int8>(-128, -2)` returns
`Ok((-128) % (-2)) = Ok(0)`, but the signed `detail::modulus` flags every
`u < 0` with `t == min` and the call fails with `domain_error`. -/
theorem C4_counterexample :
    modulus int8T int8T int8T (-128) (-2) =
      .err .domain_error "result cannot be represented" ∧
    (CheckedResult.err .domain_error "result cannot be represented" :
      CheckedResult) ≠ .ok (Int.tmod (-128) (-2)) := by
  refine ⟨by decide, by decide⟩

/-- C4 amended: for signed `R` and in-range operands with `u != 0`,
`modulus<R>(t, u)` fails with `domain_error` if and only if `u < 0` and
`t == R::min` (not only at `u == -1`); every other such pair returns
`Ok(t % u)`. -/
theorem C4_modulus_amended (R T U : IntType) (t u : Int) (hs : R.sgn = true)
    (htT : inRange T t) (htR : inRange R t)
    (huU : inRange U u) (huR : inRange R u) (hu : u ≠ 0) :
    (u < 0 ∧ t = Rmin R →
      modulus R T U t u = .err .domain_error "result cannot be represented") ∧
    (¬(u < 0 ∧ t = Rmin R) → modulus R T U t u = .ok (t.tmod u)) := by
  have hct : cast R T t = .ok t := cast_ok_of_inRange htT htR
  have hcu : cast R U u = .ok u := cast_ok_of_inRange huU huR
  unfold modulus
  rw [if_neg hu, hct, hcu]
  dsimp only
  unfold detailModulus
  rw [if_pos hs]
  constructor
  · intro hc
    rw [if_pos hc]
  · intro hc
    rw [if_neg hc]

/-- C4 witness: `modulus<int8>(-128, -1)` fails with `domain_error` and
`modulus<int8>(-128, 3) == Ok(-2)`. -/
theorem C4_witness :
    modulus int8T int8T int8T (-128) (-1) =
      .err .domain_error "result cannot be represented" ∧
    modulus int8T int8T int8T (-128) 3 = .ok (-2) :=
  ⟨(C4_modulus_amended int8T int8T int8T (-128) (-1) rfl (by decide)
      (by decide) (by decide) (by decide) (by decide)).1 (by decide),
   by
    have h := (C4_modulus_amended int8T int8T int8T (-128) 3 rfl (by decide)
      (by decide) (by decide) (by decide) (by decide)).2 (by decide)
    rw [h]; decide⟩

/-- C3 counterexample: with `t = 300` not representable in `int8`,
`divide<int8>(300, 2)` does not propagate the cast's `range_error`; it
returns a fresh `overflow_error` with message
"failure converting argument types". -/
theorem C3_counterexample :
    divide int8T int32T int32T 300 2 =
      .err .overflow_error "failure converting argument types" ∧
    (cast int8T int32T 300).kind = some .range_error ∧
    ExceptionType.overflow_error ≠ .range_error := by
  refine ⟨by decide, by decide, by decide⟩

/-- C3 amended: for `u != 0`, whenever casting `t` or `u` into `R` fails,
`divide<R>(t, u)` returns `overflow_error` with message
"failure converting argument types" — a merged failure, not the cast's own
`range_error`. -/
theorem C3_divide_merges_cast_failures (R T U : IntType) (t u : Int)
    (hu : u ≠ 0)
    (h : ¬(cast R T t).noException = true ∨ ¬(cast R U u).noException = true) :
    divide R T U t u = .err .overflow_error "failure converting argument types" := by
  unfold divide
  rw [if_neg hu]
  rw [if_pos]
  simpa using h

/-- C3 witness: the amended statement applied at `divide<int8>(300, 2)`. -/
theorem C3_witness :
    divide int8T int32T int32T 300 2 =
      .err .overflow_error "failure converting argument types" :=
  C3_divide_merges_cast_failures int8T int32T int32T 300 2 (by decide)
    (Or.inl (by decide))
/-! ### C2 -/

/-- C2 counterexample: `left_shift<uint32>(1, 32)` passes the check (the
source rejects only amounts strictly above `numeric_limits<T>::digits`) and
succeeds, and `left_shift<uint32>(1, -1)` fails with the cast's
`range_error`, not `domain_error`. -/
theorem C2_counterexample :
    (leftShift uint32T uint32T int32T 1 32).noException = true ∧
    (leftShift uint32T uint32T int32T 1 (-1)).kind = some .range_error ∧
    ExceptionType.range_error ≠ .domain_error := by
  refine ⟨by decide, by decide, by decide⟩

/-- C2 amended: `left_shift<uint32>(t, u)` (with an `int` shift amount)
fails exactly when `u < 0` or `u` strictly exceeds `T::digits = 32`; a
negative amount fails with the `range_error` of casting it into the
unsigned result type, and an amount above 32 fails with `domain_error`.
In particular `left_shift<uint32>(1, 32)` does not fail. -/
theorem C2_left_shift_amended (t u : Int)
    (ht : inRange uint32T t) (hu : inRange int32T u) :
    ((leftShift uint32T uint32T int32T t u).noException = false ↔
      (u < 0 ∨ 32 < u)) ∧
    (u < 0 →
      (leftShift uint32T uint32T int32T t u).kind = some .range_error) ∧
    (32 < u →
      (leftShift uint32T uint32T int32T t u).kind = some .domain_error) := by
  obtain ⟨hu1, hu2⟩ := hu
  unfold leftShift checkShift cast
  simp only [uint32T, int32T, Bool.not_true, Bool.false_eq_true, if_false]
  have humax : ¬ u > Rmax ⟨false, 32⟩ := by
    simp only [Rmax, int32T] at hu2 ⊢
    norm_num at hu2 ⊢
    omega
  rw [if_neg humax]
  by_cases hneg : u < 0
  · rw [if_pos hneg]
    refine ⟨?_, ?_, ?_⟩
    · simp [CheckedResult.noException, hneg]
    · intro h
      rfl
    · intro h32
      omega
  · rw [if_neg hneg]
    dsimp only
    rw [if_neg hneg]
    by_cases h32 : u > ((32 : Nat) : Int)
    · rw [if_pos h32]
      norm_num at h32
      refine ⟨?_, ?_, ?_⟩
      · simp [CheckedResult.noException, h32]
      · intro h
        exact absurd h hneg
      · intro h
        rfl
    · rw [if_neg h32]
      simp only [CheckedResult.noException, CheckedResult.kind]
      norm_num at h32
      constructor
      · simp only [Bool.true_eq_false, false_iff]
        omega
      · exact ⟨fun h => absurd h hneg, fun h => by omega⟩

/-- C2 witness: the amended statement applied at `t = 1`, `u = 32` and at
`t = 1`, `u = -1`. -/
theorem C2_witness :
    ((leftShift uint32T uint32T int32T 1 32).noException = false ↔
      ((32 : Int) < 0 ∨ (32 : Int) < 32)) ∧
    (leftShift uint32T uint32T int32T 1 (-1)).kind = some .range_error :=
  ⟨(C2_left_shift_amended 1 32 (by decide) (by decide)).1,
   (C2_left_shift_amended 1 (-1) (by decide) (by decide)).2.1 (by decide)⟩
/-! ### C5 -/

lemma tdiv_lt_iff {a b c : Int} (ha : 0 ≤ a) (hb : 0 < b) :
    a.tdiv b < c ↔ a < c * b := by
  rw [Int.tdiv_eq_ediv ha hb.le]
  exact Int.ediv_lt_iff_lt_mul hb

lemma lt_neg_tdiv_iff {m t u : Int} (hm : 0 ≤ m) (ht : 0 < t) :
    u < (-m).tdiv t ↔ t * u < -m := by
  rw [Int.neg_tdiv, lt_neg, tdiv_lt_iff hm ht, neg_mul, lt_neg, mul_comm u t]

lemma lt_tdiv_neg_iff {m t u : Int} (hm : 0 ≤ m) (ht : t < 0) :
    u < m.tdiv t ↔ m < u * t := by
  have h : m.tdiv t = -(m.tdiv (-t)) := by
    rw [← Int.tdiv_neg, neg_neg]
  rw [h, lt_neg, tdiv_lt_iff hm (by omega), neg_mul, mul_neg, neg_neg]

/-- C5 amended: for signed `R` the bounded-division multiply agrees with
the widened-intermediate multiply on success, on the `Ok` value, and on
the failure for products above `R::max`; the only divergence is that exact
products below `R::min` are `underflow_error` on the widened path and
`overflow_error` on the division path, so the division path equals the
widened path with underflow demoted to overflow. -/
theorem C5_multiply_strategies (R : IntType) (t u : Int) (hs : R.sgn = true)
    (hd : 1 ≤ R.digits) :
    multiplySignedDiv R t u = demoteUnderflow (multiplySignedWide R t u) := by
  have hm2 : (2 : Int) ≤ 2 ^ R.digits := by
    calc (2 : Int) = 2 ^ 1 := by norm_num
    _ ≤ 2 ^ R.digits := two_pow_le_two_pow hd
  have hmn : Rmin R = -(2 ^ R.digits) := by simp [Rmin, hs]
  have hmx : Rmax R = 2 ^ R.digits - 1 := rfl
  have hmxnn : (0 : Int) ≤ Rmax R := by rw [hmx]; omega
  unfold multiplySignedDiv multiplySignedWide demoteUnderflow
  by_cases ht : t > 0 <;> by_cases hu : u > 0
  · -- t > 0, u > 0
    rw [if_pos ht, if_pos hu]
    have hcond : (Rmax R).tdiv u < t ↔ Rmax R < t * u := tdiv_lt_iff hmxnn hu
    have hp : 0 < t * u := mul_pos ht hu
    by_cases hov : t * u > Rmax R
    · rw [if_pos (hcond.mpr hov), if_pos hov]
    · rw [if_neg (fun hc => hov (hcond.mp hc)), if_neg hov,
        if_neg (show ¬ t * u < Rmin R by rw [hmn]; omega)]
  · -- t > 0, u ≤ 0
    rw [if_pos ht, if_neg hu]
    have hcond : u < (Rmin R).tdiv t ↔ t * u < Rmin R := by
      rw [hmn]
      exact lt_neg_tdiv_iff (by omega) ht
    have hp : t * u ≤ 0 := mul_nonpos_of_nonneg_of_nonpos ht.le (by omega)
    have hnov : ¬ t * u > Rmax R := by rw [hmx]; omega
    by_cases hun : t * u < Rmin R
    · rw [if_pos (hcond.mpr hun), if_neg hnov, if_pos hun]
    · rw [if_neg (fun hc => hun (hcond.mp hc)), if_neg hnov, if_neg hun]
  · -- t ≤ 0, u > 0
    rw [if_neg ht, if_pos hu]
    have hcond : t < (Rmin R).tdiv u ↔ t * u < Rmin R := by
      rw [hmn, lt_neg_tdiv_iff (by omega) hu, mul_comm]
    have hp : t * u ≤ 0 := mul_nonpos_of_nonpos_of_nonneg (by omega) hu.le
    have hnov : ¬ t * u > Rmax R := by rw [hmx]; omega
    by_cases hun : t * u < Rmin R
    · rw [if_pos (hcond.mpr hun), if_neg hnov, if_pos hun]
    · rw [if_neg (fun hc => hun (hcond.mp hc)), if_neg hnov, if_neg hun]
  · -- t ≤ 0, u ≤ 0
    rw [if_neg ht, if_neg hu]
    have hp : 0 ≤ t * u := by
      have h0 : 0 ≤ (-t) * (-u) := mul_nonneg (by omega) (by omega)
      rw [neg_mul_neg] at h0
      exact h0
    have hnun : ¬ t * u < Rmin R := by rw [hmn]; omega
    by_cases ht0 : t = 0
    · subst ht0
      rw [if_neg (by simp), if_neg (by rw [hmx]; omega), if_neg hnun]
    · have htneg : t < 0 := by omega
      have hcond : u < (Rmax R).tdiv t ↔ Rmax R < u * t :=
        lt_tdiv_neg_iff hmxnn htneg
      by_cases hov : t * u > Rmax R
      · rw [if_pos ⟨ht0, hcond.mpr (by rw [mul_comm] at hov; exact hov)⟩,
          if_pos hov]
      · rw [if_neg, if_neg hov, if_neg hnun]
        rintro ⟨h1, h2⟩
        exact hov (by rw [mul_comm]; exact hcond.mp h2)

/-- C5 counterexample: at `R = int8`, `t = 100`, `u = -2` the exact product
is -200 < -128; the widened path classifies it `underflow_error` while the
bounded-division path classifies it `overflow_error`, so the two paths do
not classify every pair identically. -/
theorem C5_counterexample :
    multiplySignedWide int8T 100 (-2) =
      .err .underflow_error "multiplication underflow" ∧
    multiplySignedDiv int8T 100 (-2) =
      .err .overflow_error "multiplication overflow" ∧
    ExceptionType.underflow_error ≠ .overflow_error := by
  refine ⟨by decide, by decide, by decide⟩

/-- C5 witness: the amended statement applied at `int8`, `t = 100`,
`u = -2`. -/
theorem C5_witness :
    multiplySignedDiv int8T 100 (-2) =
      demoteUnderflow (multiplySignedWide int8T 100 (-2)) :=
  C5_multiply_strategies int8T 100 (-2) rfl (by decide)
/-! ### C9 -/

lemma tdiv_nonpos_of_nonpos_of_nonneg {a b : Int} (ha : a ≤ 0) (hb : 0 ≤ b) :
    a.tdiv b ≤ 0 := by
  have h := Int.tdiv_nonneg (by omega : (0 : Int) ≤ -a) hb
  rw [Int.neg_tdiv] at h
  omega

/-- C9: routing every overflow-check division of the bounded-division
multiply paths through a zero-refusing division changes nothing — each
divisor sits behind a guard that makes it nonzero — and a zero operand
always takes a non-dividing branch and yields `Ok(0)`. -/
theorem C9_multiply_div_no_zero_division (R : IntType) (t u : Int) :
    multiplySignedDivGuard R t u = some (multiplySignedDiv R t u) ∧
    multiplyUnsignedDivGuard R t u = some (multiplyUnsignedDiv R t u) ∧
    ((t = 0 ∨ u = 0) →
      multiplySignedDiv R t u = .ok 0 ∧ multiplyUnsignedDiv R t u = .ok 0) := by
  refine ⟨?_, ?_, ?_⟩
  · unfold multiplySignedDivGuard multiplySignedDiv tdivOpt
    by_cases ht : t > 0 <;> by_cases hu : u > 0 <;>
      simp only [ht, hu, if_true, if_false]
    · rw [if_neg (by omega : ¬ u = 0)]
      simp [Option.map]
    · rw [if_neg (by omega : ¬ t = 0)]
      simp [Option.map]
    · rw [if_neg (by omega : ¬ u = 0)]
      simp [Option.map]
    · by_cases ht0 : t = 0
      · rw [if_neg (by simp [ht0]), if_neg (by simp [ht0])]
      · rw [if_pos ht0, if_neg ht0]
        simp [Option.map, ht0]
  · unfold multiplyUnsignedDivGuard multiplyUnsignedDiv tdivOpt
    by_cases hu : u > 0
    · simp only [hu, if_true, true_and]
      rw [if_neg (by omega : ¬ u = 0)]
      simp [Option.map]
    · have hcond : ¬ (u > 0 ∧ t > (Rmax R).tdiv u) := by
        rintro ⟨h1, h2⟩
        exact hu h1
      rw [if_neg hu, if_neg hcond]
  · intro h0
    constructor
    · unfold multiplySignedDiv
      rcases h0 with h0 | h0
      · subst h0
        rw [if_neg (by omega : ¬ (0 : Int) > 0)]
        by_cases hu : u > 0
        · have hq := tdiv_nonpos_of_nonpos_of_nonneg (Rmin_nonpos R) hu.le
          rw [if_pos hu, if_neg (by omega : ¬ (0 : Int) < (Rmin R).tdiv u),
            zero_mul]
        · rw [if_neg hu,
            if_neg (show ¬ ((0 : Int) ≠ 0 ∧ u < (Rmax R).tdiv 0) by simp),
            zero_mul]
      · subst h0
        by_cases ht : t > 0
        · have hq := tdiv_nonpos_of_nonpos_of_nonneg (Rmin_nonpos R) ht.le
          rw [if_pos ht, if_neg (by omega : ¬ (0 : Int) > 0),
            if_neg (by omega : ¬ (0 : Int) < (Rmin R).tdiv t), mul_zero]
        · have hq : (Rmax R).tdiv t ≤ 0 :=
            Int.tdiv_nonpos (Rmax_nonneg R) (by omega)
          rw [if_neg ht, if_neg (by omega : ¬ (0 : Int) > 0),
            if_neg (show ¬ (t ≠ 0 ∧ (0 : Int) < (Rmax R).tdiv t) by
              rintro ⟨h1, h2⟩; omega),
            mul_zero]
    · unfold multiplyUnsignedDiv
      rcases h0 with h0 | h0
      · subst h0
        rw [if_neg (show ¬ (u > 0 ∧ (0 : Int) > (Rmax R).tdiv u) by
            rintro ⟨h1, h2⟩
            have hq := Int.tdiv_nonneg (Rmax_nonneg R) h1.le
            omega),
          zero_mul]
      · subst h0
        rw [if_neg (show ¬ ((0 : Int) > 0 ∧ t > (Rmax R).tdiv 0) by
            rintro ⟨h1, h2⟩; omega),
          mul_zero]

/-- C9 witness: the statement applied at `R = int8`, `t = 0`, `u = 5`. -/
theorem C9_witness :
    multiplySignedDivGuard int8T 0 5 = some (multiplySignedDiv int8T 0 5) ∧
    multiplySignedDiv int8T 0 5 = .ok 0 :=
  ⟨(C9_multiply_div_no_zero_division int8T 0 5).1,
   ((C9_multiply_div_no_zero_division int8T 0 5).2.2 (Or.inl rfl)).1⟩
/-! ### C10 -/

lemma inRange_widen {T : IntType} {t : Int} (h : inRange T t) {d : Nat}
    (hd : T.digits ≤ d) : inRange ⟨true, d⟩ t := by
  obtain ⟨h1, h2⟩ := h
  have hp := two_pow_le_two_pow (show T.digits ≤ d from hd)
  have hpT := two_pow_pos T.digits
  have e1 : Rmin ⟨true, d⟩ = -(2 ^ d) := by simp [Rmin]
  have e2 : Rmax ⟨true, d⟩ = 2 ^ d - 1 := rfl
  have e3 : Rmax T = 2 ^ T.digits - 1 := rfl
  rw [e3] at h2
  have hTlow : -(2 ^ T.digits) ≤ t := by
    rcases Bool.eq_false_or_eq_true T.sgn with hTs | hTs <;>
      simp only [Rmin, hTs, Bool.false_eq_true, eq_self_iff_true, if_true,
        if_false] at h1 <;>
      omega
  exact ⟨by rw [e1]; omega, by rw [e2]; omega⟩

/-- C10 amended: `divide_automatic<R>(t, u)` fails only with
`domain_error` — "divide by zero" at `u == 0`, or
"result cannot be represented" when `U` is signed, `u == -1`,
`t == T::min` and `T`'s digit count equals the intermediate type's digit
count; on every other input it returns a value (never a cast or range
failure), provided the operands fit the computed intermediate type
(hypotheses `hdT`/`hdU`, which exclude only an unsigned `T` or `U` wider
than the widest signed type, e.g. `T = uint64`). -/
theorem C10_divide_automatic (R T U : IntType) (imaxD : Nat) (t u : Int)
    (ht : inRange T t) (hu : inRange U u)
    (hdT : T.digits ≤ (autoTType T U imaxD).digits)
    (hdU : U.sgn = true → U.digits ≤ (autoTType T U imaxD).digits) :
    (u = 0 → divideAutomatic R T U imaxD t u =
      some (.err .domain_error "divide by zero")) ∧
    (u ≠ 0 → U.sgn = true → T.digits = (autoTType T U imaxD).digits →
      u = -1 → t = Rmin T →
      divideAutomatic R T U imaxD t u =
        some (.err .domain_error "result cannot be represented")) ∧
    (u ≠ 0 →
      ¬(U.sgn = true ∧ T.digits = (autoTType T U imaxD).digits ∧
        u = -1 ∧ t = Rmin T) →
      ∃ v : Int, divideAutomatic R T U imaxD t u = some (.ok v)) := by
  unfold divideAutomatic
  refine ⟨?_, ?_, ?_⟩
  · intro h
    rw [if_pos h]
  · intro hu0 hUs hdig hm1 hmin
    rw [if_neg hu0]
    unfold detailAutoDivide
    simp only [hUs, Bool.not_true, Bool.false_eq_true, if_false]
    rw [if_pos ⟨hdig, hm1, hmin⟩]
  · intro hu0 hnot
    rw [if_neg hu0]
    unfold detailAutoDivide
    rcases Bool.eq_false_or_eq_true U.sgn with hUs | hUs
    case inr =>
      simp only [hUs, Bool.not_false, if_true]
      exact ⟨_, rfl⟩
    case inl =>
      simp only [hUs, Bool.not_true, Bool.false_eq_true, if_false]
      have hc : ¬(T.digits = (autoTType T U imaxD).digits ∧ u = -1 ∧
          t = Rmin T) := by
        rintro ⟨a, b, c⟩
        exact hnot ⟨hUs, a, b, c⟩
      rw [if_neg hc]
      have hct : cast (autoTType T U imaxD) T t = .ok t :=
        cast_ok_of_inRange ht (inRange_widen ht hdT)
      have hcu : cast (autoTType T U imaxD) U u = .ok u :=
        cast_ok_of_inRange hu (inRange_widen hu (hdU hUs))
      rw [hct, hcu]
      exact ⟨_, rfl⟩

/-- C10 counterexample: at `T = uint64` (64 digits, above the intermediate
type's 63) with `t = 2^63`, the internal `cast<t_type>(t)` fails and the
source reads the raw value of a failed result — modelled as `none` — so
`divide_automatic` does not return a value there, contrary to the claim's
"for every other input it returns a value". -/
theorem C10_counterexample :
    divideAutomatic int8T uint64T int8T 63 (2 ^ 63) 1 = none := by
  decide

/-- C10 witness: the amended statement applied at `T = U = int64`,
`t = INT64_MIN`, `u = -1`, where the explicit guard fires. -/
theorem C10_witness :
    divideAutomatic int8T int64T int64T 63 (-(2 ^ 63)) (-1) =
      some (.err .domain_error "result cannot be represented") :=
  (C10_divide_automatic int8T int64T int64T 63 (-(2 ^ 63)) (-1) (by decide)
    (by decide) (by decide) (fun _ => by decide)).2.1 (by decide) rfl
    (by decide) rfl (by decide)
end SafeNumerics
